import Mathlib

/-!
Shallow embedding of the `azure_openai_blaster` dispatch core.

The embedding covers:
* `AzureEndpointState` and its operations (`available`, `_record_error`,
  `_maybe_auto_disable`, `set_cooldown`, `note_success`,
  `note_transient_error`, `disable`) from `azure_endpoint_state.py`;
* the scan loop of `WeightedRRScheduler.next` from `scheduler/weighted.py`;
* the post-invoke decision logic of `AzureLLMBlaster._handle_job`
  from `blaster.py`;
* the outcome classification of `invoke_endpoint` from `requesting.py`.

Python floats that hold monotonic timestamps and cooldown durations are
modelled as rationals (`ℚ`); the arithmetic the code performs on them
(additions, doublings, comparisons, max) is exact on the values of
interest.  Exceptions are modelled by their class name, message text and
whether they are a rate-limit error, which is all the code inspects.
Locks and threads are elided: every operation of the Python code runs
under the instance lock, so each operation is modelled as an atomic
state-to-state function.
-/

/-- A Python exception as far as the code observes it: its class name
(`type(exc).__name__`), its message (`str(exc)`), and whether it is an
instance of `RateLimitError`. -/
structure Exc where
  name : String
  msg : String
  isRateLimit : Bool
deriving DecidableEq

/-- The slice of `AzureDeploymentConfig` the dispatch core reads:
a display name and a scheduling weight. -/
structure AzureDeploymentConfig where
  name : String
  weight : Int
deriving DecidableEq

/-- State of one endpoint, from the dataclass `AzureEndpointState`
(`azure_endpoint_state.py`).  The `client` handle and the `lock` are not
modelled (the former is opaque to the core, the latter only serializes
the operations modelled here as atomic functions). -/
structure AzureEndpointState where
  cfg : AzureDeploymentConfig
  cooldown_until : ℚ := 0
  disabled : Bool := false
  disabled_reason : Option String := none
  failure_streak : Nat := 0
  last_error : Option Exc := none
  total_requests : Nat := 0
  total_rate_limits : Nat := 0
  error_counts : List (String × Nat) := []
  error_samples : List String := []
  max_error_samples : Nat := 50
  auto_disable_threshold : Int := 5
deriving DecidableEq

/-- A fresh endpoint state with the dataclass field defaults. -/
def initState : AzureEndpointState :=
  { cfg := { name := "ep", weight := 1 } }

namespace AzureEndpointState

/-- `available(now)`: false if `disabled`, otherwise `now >= cooldown_until`. -/
def available (s : AzureEndpointState) (now : ℚ) : Bool :=
  if s.disabled then false else decide (s.cooldown_until ≤ now)

/-- `d[key] = d.get(key, 0) + 1` on an insertion-ordered dict modelled as an
association list: update in place if present, else append at the end. -/
def dictIncr : List (String × Nat) → String → List (String × Nat)
  | [], k => [(k, 1)]
  | (k', v) :: rest, k =>
      if k' = k then (k', v + 1) :: rest else (k', v) :: dictIncr rest k

/-- `_record_error`: update `last_error`, `error_counts`, `error_samples`
(bounded by `max_error_samples`), and `total_rate_limits` for rate limits. -/
def _record_error (s : AzureEndpointState) (exc : Exc) : AzureEndpointState :=
  let s1 := { s with last_error := some exc }
  let key := exc.name
  let s2 := { s1 with error_counts := dictIncr s1.error_counts key }
  let s3 :=
    if s2.error_samples.length < s2.max_error_samples then
      { s2 with error_samples := s2.error_samples ++ [key ++ ": " ++ exc.msg] }
    else s2
  if exc.isRateLimit then
    { s3 with total_rate_limits := s3.total_rate_limits + 1 }
  else s3

/-- The reason string built by `_maybe_auto_disable`. -/
def autoDisableMsg (streak : Nat) (exc : Exc) : String :=
  "Auto-disabled after " ++ toString streak ++
    " consecutive failures; last error: " ++ exc.name ++ ": " ++ exc.msg

/-- `_maybe_auto_disable`: if not disabled, the threshold is positive and the
failure streak has reached it, permanently disable with a descriptive reason. -/
def _maybe_auto_disable (s : AzureEndpointState) (exc : Exc) : AzureEndpointState :=
  if s.disabled = false ∧ 0 < s.auto_disable_threshold ∧
      s.auto_disable_threshold ≤ (s.failure_streak : Int) then
    { s with disabled := true,
             disabled_reason := some (autoDisableMsg s.failure_streak exc) }
  else s

/-- `set_cooldown(cooldown_until, exc)`: optionally record the error and
evaluate auto-disable, then extend the cooldown only if it increases. -/
def set_cooldown (s : AzureEndpointState) (cooldown_until : ℚ)
    (exc : Option Exc) : AzureEndpointState :=
  let s1 :=
    match exc with
    | some e => (s._record_error e)._maybe_auto_disable e
    | none => s
  if s1.cooldown_until < cooldown_until then
    { s1 with cooldown_until := cooldown_until }
  else s1

/-- `note_success`: reset the failure streak, clear the last error,
increment `total_requests`. -/
def note_success (s : AzureEndpointState) : AzureEndpointState :=
  { s with failure_streak := 0, last_error := none,
           total_requests := s.total_requests + 1 }

/-- `note_transient_error(exc, base_cooldown)` called at monotonic time `now`:
increment the streak, record the error, extend the cooldown by the exponential
backoff `base_cooldown * 2 ^ (failure_streak - 1)` if that increases it, then
evaluate auto-disable. -/
def note_transient_error (s : AzureEndpointState) (exc : Exc)
    (base_cooldown now : ℚ) : AzureEndpointState :=
  let s1 := { s with failure_streak := s.failure_streak + 1 }
  let s2 := s1._record_error exc
  let backoff := base_cooldown * 2 ^ (s2.failure_streak - 1)
  let new_until := now + backoff
  let s3 :=
    if s2.cooldown_until < new_until then
      { s2 with cooldown_until := new_until }
    else s2
  s3._maybe_auto_disable exc

/-- `disable(reason)`: unconditionally set `disabled` and `disabled_reason`. -/
def disable (s : AzureEndpointState) (reason : String) : AzureEndpointState :=
  { s with disabled := true, disabled_reason := some reason }

end AzureEndpointState

/-- One endpoint-state mutation, for stating lifetime invariants over
arbitrary operation sequences. -/
inductive EPOp where
  | setCooldown (cooldown_until : ℚ) (exc : Option Exc)
  | noteTransient (exc : Exc) (base_cooldown now : ℚ)
  | noteSuccess
  | disableOp (reason : String)
deriving DecidableEq

/-- Apply one operation to an endpoint state. -/
def applyOp (s : AzureEndpointState) : EPOp → AzureEndpointState
  | .setCooldown u e => s.set_cooldown u e
  | .noteTransient e b n => s.note_transient_error e b n
  | .noteSuccess => s.note_success
  | .disableOp r => s.disable r

/-- Apply a sequence of operations, oldest first. -/
def applyOps (s : AzureEndpointState) (ops : List EPOp) : AzureEndpointState :=
  ops.foldl applyOp s

/-! ### Scheduler (`scheduler/weighted.py`) -/

/-- Outcome of one full scan of the ring inside `WeightedRRScheduler.next`:
an endpoint was returned, or the scan must sleep until the soonest cooldown
of an enabled endpoint, or a `RuntimeError` is raised because no enabled
endpoint exists. -/
inductive ScanResult where
  | found (ep : AzureEndpointState)
  | wait (soonest : ℚ)
  | exhausted
deriving DecidableEq

/-- `if soonest is None or ep.cooldown_until < soonest: soonest = ep.cooldown_until`. -/
def updateSoonest : Option ℚ → ℚ → Option ℚ
  | none, c => some c
  | some s, c => if c < s then some c else some s

/-- The `for _ in range(n)` loop body of `WeightedRRScheduler.next`, recursing
on the remaining iteration count.  `idx` is the ring cursor (advanced mod ring
length on every step), `af` is `available_found`, `so` is `soonest`.  After the
loop, the code raises when `not available_found or soonest is None` and
otherwise sleeps until `soonest`. -/
def scanGo (ring : List AzureEndpointState) (now : ℚ) :
    Nat → Nat → Bool → Option ℚ → ScanResult
  | _, 0, af, so =>
      if af then
        match so with
        | some s => ScanResult.wait s
        | none => ScanResult.exhausted
      else ScanResult.exhausted
  | idx, fuel + 1, af, so =>
      let ep := ring.getD idx initState
      let idx2 := (idx + 1) % ring.length
      if ep.disabled then scanGo ring now idx2 fuel af so
      else if ep.available now then ScanResult.found ep
      else scanGo ring now idx2 fuel true (updateSoonest so ep.cooldown_until)

namespace WeightedRRScheduler

/-- One scan of the ring by `WeightedRRScheduler.next` at monotonic time
`now`, starting from cursor `idx`: scan `len(ring)` positions. -/
def nextScan (ring : List AzureEndpointState) (idx : Nat) (now : ℚ) : ScanResult :=
  scanGo ring now idx ring.length false none

end WeightedRRScheduler

/-! ### Request execution (`requesting.py`) -/

/-- `RequestResult` from `requesting.py`. -/
structure RequestResult where
  ok : Bool
  retryable : Bool
  response : Option String := none
  error : Option Exc := none
deriving DecidableEq

/-- What the underlying chat-completion call does, as far as the
`try/except` chain of `invoke_endpoint` distinguishes: it returns content,
or raises one of the four caught exception types, or raises something the
chain does not catch — e.g. a 5xx `InternalServerError` (an
`APIStatusError` that is none of `RateLimitError`, `AuthenticationError`,
`APITimeoutError`, `BadRequestError`).  For a rate limit, `retryAfter` is
the value `parse_retry_after_seconds` extracts (`none` when no header or
parseable message is present). -/
inductive CallOutcome where
  | success (content : String)
  | rateLimit (e : Exc) (retryAfter : Option ℚ)
  | authError (e : Exc)
  | apiTimeout (e : Exc)
  | badRequest (e : Exc)
  | serverError5xx (e : Exc)
deriving DecidableEq

/-- `invoke_endpoint` at monotonic time `now`, given what the underlying
call does.  Returns the mutated endpoint state paired with the
`RequestResult`, or `Except.error` when the raised exception matches no
`except` clause and propagates out of the function. -/
def invoke_endpoint (ep : AzureEndpointState) (now : ℚ) :
    CallOutcome → Except Exc (AzureEndpointState × RequestResult)
  | .success content =>
      .ok (ep.note_success,
        { ok := true, retryable := false, response := some content })
  | .rateLimit e retryAfter =>
      let retry_after : ℚ :=
        match retryAfter with
        | none => 15
        | some r => if r = 0 then 15 else r
      let cooldown_until := now + retry_after
      .ok (ep.set_cooldown cooldown_until (some e),
        { ok := false, retryable := true, error := some e })
  | .authError e =>
      .ok (ep.disable "auth error",
        { ok := false, retryable := false, error := some e })
  | .apiTimeout e =>
      .ok (ep.note_transient_error e 1 now,
        { ok := false, retryable := true, error := some e })
  | .badRequest e =>
      .ok (ep, { ok := false, retryable := false, error := some e })
  | .serverError5xx e => .error e

/-! ### Dispatcher (`blaster.py`) -/

/-- What `AzureLLMBlaster._handle_job` does with a job: skip it, resolve the
future with a result string, resolve it with an exception, or requeue the job
carrying its new retry count. -/
inductive HandleOutcome where
  | skip
  | setResult (s : String)
  | setException (e : Exc)
  | requeue (retry_count : Nat)
deriving DecidableEq

/-- The `TimeoutError` raised when a job exhausts its retry budget:
`TimeoutError(f"Job deemed problematic after {job.retry_count} tries.")`. -/
def problematicJobError (tries : Nat) : Exc :=
  { name := "TimeoutError",
    msg := "Job deemed problematic after " ++ toString tries ++ " tries.",
    isRateLimit := false }

/-- The `RuntimeError` raised for a non-retryable failure carrying no error:
`RuntimeError("LLM request failed without an explicit error.")`. -/
def noExplicitErrorError : Exc :=
  { name := "RuntimeError",
    msg := "LLM request failed without an explicit error.",
    isRateLimit := false }

/-- The decision logic of `AzureLLMBlaster._handle_job` once the executor's
`RequestResult` is in hand: `future_done` is `job.future.done()` at entry,
`retry_count` the job's count before this attempt, `max_job_retry` the
configured budget. -/
def handle_job (future_done : Bool) (retry_count max_job_retry : Nat)
    (result : RequestResult) : HandleOutcome :=
  if future_done then .skip
  else if result.ok then .setResult (result.response.getD "")
  else
    let rc := retry_count + 1
    if max_job_retry ≤ rc then
      .setException (result.error.getD (problematicJobError rc))
    else if result.retryable then .requeue rc
    else .setException (result.error.getD noExplicitErrorError)

/-! ## Lemmas about the endpoint state machine -/

open AzureEndpointState

theorem record_error_cooldown (s : AzureEndpointState) (e : Exc) :
    (s._record_error e).cooldown_until = s.cooldown_until := by
  simp only [_record_error]
  split <;> split <;> rfl

theorem record_error_streak (s : AzureEndpointState) (e : Exc) :
    (s._record_error e).failure_streak = s.failure_streak := by
  simp only [_record_error]
  split <;> split <;> rfl

theorem record_error_disabled (s : AzureEndpointState) (e : Exc) :
    (s._record_error e).disabled = s.disabled := by
  simp only [_record_error]
  split <;> split <;> rfl

theorem record_error_reason (s : AzureEndpointState) (e : Exc) :
    (s._record_error e).disabled_reason = s.disabled_reason := by
  simp only [_record_error]
  split <;> split <;> rfl

theorem record_error_threshold (s : AzureEndpointState) (e : Exc) :
    (s._record_error e).auto_disable_threshold = s.auto_disable_threshold := by
  simp only [_record_error]
  split <;> split <;> rfl

theorem mad_streak (s : AzureEndpointState) (e : Exc) :
    (s._maybe_auto_disable e).failure_streak = s.failure_streak := by
  unfold _maybe_auto_disable
  split <;> rfl

theorem mad_cooldown (s : AzureEndpointState) (e : Exc) :
    (s._maybe_auto_disable e).cooldown_until = s.cooldown_until := by
  unfold _maybe_auto_disable
  split <;> rfl

theorem mad_threshold (s : AzureEndpointState) (e : Exc) :
    (s._maybe_auto_disable e).auto_disable_threshold = s.auto_disable_threshold := by
  unfold _maybe_auto_disable
  split <;> rfl

theorem mad_no_fire (s : AzureEndpointState) (e : Exc)
    (h : ¬(s.disabled = false ∧ 0 < s.auto_disable_threshold ∧
        s.auto_disable_threshold ≤ (s.failure_streak : Int))) :
    s._maybe_auto_disable e = s := by
  unfold _maybe_auto_disable
  exact if_neg h

theorem mad_fire (s : AzureEndpointState) (e : Exc)
    (h1 : s.disabled = false) (h2 : 0 < s.auto_disable_threshold)
    (h3 : s.auto_disable_threshold ≤ (s.failure_streak : Int)) :
    s._maybe_auto_disable e =
      { s with disabled := true,
               disabled_reason := some (autoDisableMsg s.failure_streak e) } := by
  unfold _maybe_auto_disable
  exact if_pos ⟨h1, h2, h3⟩

theorem mad_disabled_stays (s : AzureEndpointState) (e : Exc)
    (h : s.disabled = true) : (s._maybe_auto_disable e).disabled = true := by
  unfold _maybe_auto_disable
  split <;> simp [h]

theorem set_cooldown_cooldown (s : AzureEndpointState) (u : ℚ) (e : Option Exc) :
    (s.set_cooldown u e).cooldown_until = max s.cooldown_until u := by
  unfold AzureEndpointState.set_cooldown
  cases e with
  | none =>
      dsimp only
      split
      · next h => exact (max_eq_right (le_of_lt h)).symm
      · next h => exact (max_eq_left (not_lt.mp h)).symm
  | some ex =>
      dsimp only
      rw [mad_cooldown, record_error_cooldown]
      split
      · next h => exact (max_eq_right (le_of_lt h)).symm
      · next h =>
          rw [mad_cooldown, record_error_cooldown]
          exact (max_eq_left (not_lt.mp h)).symm

theorem set_cooldown_streak (s : AzureEndpointState) (u : ℚ) (e : Option Exc) :
    (s.set_cooldown u e).failure_streak = s.failure_streak := by
  unfold AzureEndpointState.set_cooldown
  cases e with
  | none => dsimp only; split <;> rfl
  | some ex =>
      dsimp only
      split <;> simp [mad_streak, record_error_streak]

theorem set_cooldown_disabled_stays (s : AzureEndpointState) (u : ℚ) (e : Option Exc)
    (h : s.disabled = true) : (s.set_cooldown u e).disabled = true := by
  unfold AzureEndpointState.set_cooldown
  cases e with
  | none => dsimp only; split <;> simp [h]
  | some ex =>
      dsimp only
      have hd : ((s._record_error ex)._maybe_auto_disable ex).disabled = true :=
        mad_disabled_stays _ _ (by rw [record_error_disabled]; exact h)
      split <;> simp [hd]

theorem note_success_fields (s : AzureEndpointState) :
    (s.note_success).failure_streak = 0 ∧
    (s.note_success).last_error = none ∧
    (s.note_success).total_requests = s.total_requests + 1 ∧
    (s.note_success).cooldown_until = s.cooldown_until ∧
    (s.note_success).disabled = s.disabled ∧
    (s.note_success).disabled_reason = s.disabled_reason ∧
    (s.note_success).total_rate_limits = s.total_rate_limits ∧
    (s.note_success).error_counts = s.error_counts ∧
    (s.note_success).error_samples = s.error_samples ∧
    (s.note_success).max_error_samples = s.max_error_samples ∧
    (s.note_success).auto_disable_threshold = s.auto_disable_threshold ∧
    (s.note_success).cfg = s.cfg := by
  refine ⟨rfl, rfl, rfl, rfl, rfl, rfl, rfl, rfl, rfl, rfl, rfl, rfl⟩

theorem nte_streak (s : AzureEndpointState) (e : Exc) (b n : ℚ) :
    (s.note_transient_error e b n).failure_streak = s.failure_streak + 1 := by
  unfold note_transient_error
  dsimp only
  rw [mad_streak]
  split <;> simp [record_error_streak]

theorem nte_threshold (s : AzureEndpointState) (e : Exc) (b n : ℚ) :
    (s.note_transient_error e b n).auto_disable_threshold
      = s.auto_disable_threshold := by
  unfold note_transient_error
  dsimp only
  rw [mad_threshold]
  split <;> simp [record_error_threshold]

theorem nte_cooldown (s : AzureEndpointState) (e : Exc) (b n : ℚ) :
    (s.note_transient_error e b n).cooldown_until
      = max s.cooldown_until (n + b * 2 ^ s.failure_streak) := by
  unfold note_transient_error
  dsimp only
  rw [mad_cooldown]
  rw [record_error_streak, record_error_cooldown]
  dsimp only
  rw [Nat.add_sub_cancel]
  split
  · next h => exact (max_eq_right (le_of_lt h)).symm
  · next h =>
      rw [record_error_cooldown]
      exact (max_eq_left (not_lt.mp h)).symm

theorem nte_destruct (s : AzureEndpointState) (e : Exc) (b n : ℚ) :
    ∃ s3 : AzureEndpointState,
      s.note_transient_error e b n = s3._maybe_auto_disable e ∧
      s3.disabled = s.disabled ∧
      s3.disabled_reason = s.disabled_reason ∧
      s3.failure_streak = s.failure_streak + 1 ∧
      s3.auto_disable_threshold = s.auto_disable_threshold := by
  refine ⟨_, rfl, ?_, ?_, ?_, ?_⟩ <;>
    first
    | (split <;> simp [record_error_disabled])
    | (split <;> simp [record_error_reason])
    | (split <;> simp [record_error_streak])
    | (split <;> simp [record_error_threshold])

theorem nte_no_fire (s : AzureEndpointState) (e : Exc) (b n : ℚ)
    (h : ¬(s.disabled = false ∧ 0 < s.auto_disable_threshold ∧
        s.auto_disable_threshold ≤ (s.failure_streak : Int) + 1)) :
    (s.note_transient_error e b n).disabled = s.disabled ∧
    (s.note_transient_error e b n).disabled_reason = s.disabled_reason := by
  obtain ⟨s3, heq, hd, hr, hs, ht⟩ := nte_destruct s e b n
  rw [heq, mad_no_fire _ _ (by rw [hd, ht, hs]; push_cast; exact h)]
  exact ⟨hd, hr⟩

theorem nte_fire (s : AzureEndpointState) (e : Exc) (b n : ℚ)
    (h1 : s.disabled = false) (h2 : 0 < s.auto_disable_threshold)
    (h3 : s.auto_disable_threshold ≤ (s.failure_streak : Int) + 1) :
    (s.note_transient_error e b n).disabled = true ∧
    (s.note_transient_error e b n).disabled_reason
      = some (autoDisableMsg (s.failure_streak + 1) e) := by
  obtain ⟨s3, heq, hd, hr, hs, ht⟩ := nte_destruct s e b n
  rw [heq, mad_fire s3 e (by rw [hd]; exact h1) (by rw [ht]; exact h2)
    (by rw [ht, hs]; push_cast; exact h3)]
  exact ⟨rfl, by rw [hs]⟩

theorem nte_disabled_stays (s : AzureEndpointState) (e : Exc) (b n : ℚ)
    (h : s.disabled = true) :
    (s.note_transient_error e b n).disabled = true := by
  obtain ⟨s3, heq, hd, _, _, _⟩ := nte_destruct s e b n
  rw [heq]
  exact mad_disabled_stays _ _ (hd.trans h)

theorem applyOp_cooldown_mono (s : AzureEndpointState) (op : EPOp) :
    s.cooldown_until ≤ (applyOp s op).cooldown_until := by
  cases op with
  | setCooldown u e =>
      simp only [applyOp]
      rw [set_cooldown_cooldown]
      exact le_max_left _ _
  | noteTransient e b n =>
      simp only [applyOp]
      rw [nte_cooldown]
      exact le_max_left _ _
  | noteSuccess => exact le_rfl
  | disableOp r => exact le_rfl

theorem applyOps_cooldown_mono (ops : List EPOp) (s : AzureEndpointState) :
    s.cooldown_until ≤ (applyOps s ops).cooldown_until := by
  induction ops generalizing s with
  | nil => exact le_rfl
  | cons op rest ih =>
      show s.cooldown_until ≤ (applyOps (applyOp s op) rest).cooldown_until
      exact le_trans (applyOp_cooldown_mono s op) (ih (applyOp s op))

theorem applyOp_disabled_stays (s : AzureEndpointState) (op : EPOp)
    (h : s.disabled = true) : (applyOp s op).disabled = true := by
  cases op with
  | setCooldown u e => exact set_cooldown_disabled_stays s u e h
  | noteTransient e b n => exact nte_disabled_stays s e b n h
  | noteSuccess => exact h
  | disableOp r => rfl

theorem applyOps_disabled_stays (ops : List EPOp) (s : AzureEndpointState)
    (h : s.disabled = true) : (applyOps s ops).disabled = true := by
  induction ops generalizing s with
  | nil => exact h
  | cons op rest ih =>
      show (applyOps (applyOp s op) rest).disabled = true
      exact ih (applyOp s op) (applyOp_disabled_stays s op h)

/-! ## Lemmas about the scheduler scan -/

theorem getD_mem_of_lt (l : List AzureEndpointState) (j : Nat)
    (d : AzureEndpointState) (h : j < l.length) : l.getD j d ∈ l := by
  induction l generalizing j with
  | nil => simp at h
  | cons a t ih =>
      cases j with
      | zero => exact List.mem_cons_self a t
      | succ j' =>
          exact List.mem_cons_of_mem a (ih j' (Nat.lt_of_succ_lt_succ h))

theorem exists_getD_of_mem (l : List AzureEndpointState) (a d : AzureEndpointState)
    (h : a ∈ l) : ∃ j, j < l.length ∧ l.getD j d = a := by
  induction l with
  | nil => simp at h
  | cons b t ih =>
      rcases List.mem_cons.mp h with h1 | h2
      · exact ⟨0, Nat.succ_pos _, h1.symm⟩
      · obtain ⟨j, hj, hg⟩ := ih h2
        exact ⟨j + 1, Nat.succ_lt_succ hj, hg⟩

theorem exists_shift_mod (n idx j : Nat) (hn : 0 < n) (hj : j < n) :
    ∃ k, k < n ∧ (idx + k) % n = j := by
  refine ⟨(j + n - idx % n) % n, Nat.mod_lt _ hn, ?_⟩
  have hm : idx % n < n := Nat.mod_lt _ hn
  have ht : idx % n + (j + n - idx % n) = j + n := by omega
  calc (idx + (j + n - idx % n) % n) % n
      = (idx % n + (j + n - idx % n) % n) % n := (Nat.mod_add_mod _ _ _).symm
    _ = (idx % n + (j + n - idx % n)) % n := Nat.add_mod_mod _ _ _
    _ = (j + n) % n := by rw [ht]
    _ = j := by rw [Nat.add_mod_right]; exact Nat.mod_eq_of_lt hj

theorem available_true_iff (s : AzureEndpointState) (now : ℚ) :
    s.available now = true ↔ s.disabled = false ∧ s.cooldown_until ≤ now := by
  cases hd : s.disabled with
  | true => simp [AzureEndpointState.available, hd]
  | false => simp [AzureEndpointState.available, hd]

theorem available_false_lt (s : AzureEndpointState) (now : ℚ)
    (hd : s.disabled = false) (h : s.available now = false) :
    now < s.cooldown_until := by
  unfold AzureEndpointState.available at h
  rw [hd] at h
  simp at h
  exact h

theorem updateSoonest_ne_none (so : Option ℚ) (c : ℚ) :
    updateSoonest so c ≠ none := by
  cases so with
  | none => exact Option.some_ne_none c
  | some s =>
      show (if c < s then some c else some s) ≠ none
      split <;> exact Option.some_ne_none _

theorem scanGo_found (ring : List AzureEndpointState) (now : ℚ) :
    ∀ fuel idx af so ep, scanGo ring now idx fuel af so = .found ep →
      ep.disabled = false ∧ ep.available now = true := by
  intro fuel
  induction fuel with
  | zero =>
      intro idx af so ep h
      cases af <;> cases so <;> simp [scanGo] at h
  | succ f ih =>
      intro idx af so ep h
      simp only [scanGo] at h
      split at h
      · exact ih _ _ _ _ h
      · rename_i hdis
        split at h
        · rename_i hav
          cases h
          exact ⟨by simpa using hdis, hav⟩
        · exact ih _ _ _ _ h

theorem scanGo_not_exhausted_of_some (ring : List AzureEndpointState) (now : ℚ) :
    ∀ fuel idx so, so ≠ none →
      scanGo ring now idx fuel true so ≠ .exhausted := by
  intro fuel
  induction fuel with
  | zero =>
      intro idx so hso
      cases so with
      | none => exact absurd rfl hso
      | some s => simp [scanGo]
  | succ f ih =>
      intro idx so hso h
      simp only [scanGo] at h
      split at h
      · exact ih _ _ hso h
      · split at h
        · simp at h
        · exact ih _ _ (updateSoonest_ne_none _ _) h

theorem scanGo_exhausted_all_disabled (ring : List AzureEndpointState) (now : ℚ)
    (hn : 0 < ring.length) :
    ∀ fuel idx, idx < ring.length →
      scanGo ring now idx fuel false none = .exhausted →
      ∀ k, k < fuel →
        (ring.getD ((idx + k) % ring.length) initState).disabled = true := by
  intro fuel
  induction fuel with
  | zero =>
      intro idx _ _ k hk
      exact absurd hk (Nat.not_lt_zero k)
  | succ f ih =>
      intro idx hidx h k hk
      simp only [scanGo] at h
      split at h
      · rename_i hdis
        cases k with
        | zero =>
            rw [Nat.add_zero, Nat.mod_eq_of_lt hidx]
            exact hdis
        | succ k' =>
            have h2 := ih ((idx + 1) % ring.length) (Nat.mod_lt _ hn) h k'
              (Nat.lt_of_succ_lt_succ hk)
            rw [Nat.mod_add_mod] at h2
            rw [show idx + (k' + 1) = idx + 1 + k' from by omega]
            exact h2
      · split at h
        · simp at h
        · exact absurd h
            (scanGo_not_exhausted_of_some ring now f _ _ (updateSoonest_ne_none _ _))

theorem scanGo_all_disabled_exhausted (ring : List AzureEndpointState) (now : ℚ)
    (hn : 0 < ring.length)
    (hall : ∀ ep ∈ ring, ep.disabled = true) :
    ∀ fuel idx, idx < ring.length →
      scanGo ring now idx fuel false none = .exhausted := by
  intro fuel
  induction fuel with
  | zero => intro idx _; simp [scanGo]
  | succ f ih =>
      intro idx hidx
      have hd : (ring.getD idx initState).disabled = true :=
        hall _ (getD_mem_of_lt ring idx initState hidx)
      simp only [scanGo, hd]
      simp only [if_true]
      exact ih _ (Nat.mod_lt _ hn)

theorem scanGo_found_of_exists (ring : List AzureEndpointState) (now : ℚ)
    (hn : 0 < ring.length) :
    ∀ fuel idx, idx < ring.length →
      (∃ k, k < fuel ∧
        (ring.getD ((idx + k) % ring.length) initState).disabled = false ∧
        (ring.getD ((idx + k) % ring.length) initState).available now = true) →
      ∀ af so, ∃ ep, scanGo ring now idx fuel af so = .found ep := by
  intro fuel
  induction fuel with
  | zero =>
      rintro idx _ ⟨k, hk, -, -⟩
      exact absurd hk (Nat.not_lt_zero k)
  | succ f ih =>
      rintro idx hidx ⟨k, hk, hkd, hka⟩ af so
      simp only [scanGo]
      by_cases hdis : (ring.getD idx initState).disabled = true
      · rw [if_pos hdis]
        cases k with
        | zero =>
            rw [Nat.add_zero, Nat.mod_eq_of_lt hidx, hdis] at hkd
            cases hkd
        | succ k' =>
            refine ih ((idx + 1) % ring.length) (Nat.mod_lt _ hn)
              ⟨k', Nat.lt_of_succ_lt_succ hk, ?_, ?_⟩ _ _
            · rw [Nat.mod_add_mod,
                show idx + 1 + k' = idx + (k' + 1) from by omega]
              exact hkd
            · rw [Nat.mod_add_mod,
                show idx + 1 + k' = idx + (k' + 1) from by omega]
              exact hka
      · rw [if_neg hdis]
        by_cases hav : (ring.getD idx initState).available now = true
        · rw [if_pos hav]
          exact ⟨_, rfl⟩
        · rw [if_neg hav]
          cases k with
          | zero =>
              rw [Nat.add_zero, Nat.mod_eq_of_lt hidx] at hka
              exact absurd hka hav
          | succ k' =>
              refine ih ((idx + 1) % ring.length) (Nat.mod_lt _ hn)
                ⟨k', Nat.lt_of_succ_lt_succ hk, ?_, ?_⟩ _ _
              · rw [Nat.mod_add_mod,
                  show idx + 1 + k' = idx + (k' + 1) from by omega]
                exact hkd
              · rw [Nat.mod_add_mod,
                  show idx + 1 + k' = idx + (k' + 1) from by omega]
                exact hka

theorem scanGo_wait_inv (ring : List AzureEndpointState) (now : ℚ)
    (hn : 0 < ring.length) :
    ∀ fuel idx, idx < ring.length → ∀ af so,
      (∀ s0, so = some s0 → ∃ ep ∈ ring, ep.disabled = false ∧
        ep.available now = false ∧ ep.cooldown_until = s0) →
      ∀ s, scanGo ring now idx fuel af so = .wait s →
        ∃ ep ∈ ring, ep.disabled = false ∧
          ep.available now = false ∧ ep.cooldown_until = s := by
  intro fuel
  induction fuel with
  | zero =>
      intro idx hidx af so hso s h
      cases af with
      | false => simp [scanGo] at h
      | true =>
          cases so with
          | none => simp [scanGo] at h
          | some s0 =>
              simp [scanGo] at h
              exact h ▸ hso s0 rfl
  | succ f ih =>
      intro idx hidx af so hso s h
      simp only [scanGo] at h
      split at h
      · exact ih _ (Nat.mod_lt _ hn) _ _ hso s h
      · rename_i hdis
        split at h
        · simp at h
        · rename_i hav
          refine ih _ (Nat.mod_lt _ hn) _ _ ?_ s h
          intro s0 hs0
          cases hcso : so with
          | none =>
              rw [hcso] at hs0
              simp only [updateSoonest, Option.some.injEq] at hs0
              exact ⟨ring.getD idx initState, getD_mem_of_lt _ _ _ hidx,
                by simpa using hdis, by simpa using hav, hs0⟩
          | some sp =>
              rw [hcso] at hs0
              simp only [updateSoonest] at hs0
              split at hs0
              · exact ⟨ring.getD idx initState, getD_mem_of_lt _ _ _ hidx,
                  by simpa using hdis, by simpa using hav,
                  by injection hs0⟩
              · have := hso sp (by rw [hcso])
                obtain ⟨ep, hmem, hd, ha, hc⟩ := this
                exact ⟨ep, hmem, hd, ha, by injection hs0 with hh; rw [hc, hh]⟩

/-! ## Claim theorems -/

/-- Claim C1: whenever the scan of `WeightedRRScheduler.next` returns an
endpoint `ep` (rather than raising or sleeping), `ep.disabled` is false and
`ep.available(now)` is true at the moment of selection, for every ring,
cursor position and time. -/
theorem scheduler_next_returns_enabled_available
    (ring : List AzureEndpointState) (idx : Nat) (now : ℚ)
    (ep : AzureEndpointState)
    (h : WeightedRRScheduler.nextScan ring idx now = .found ep) :
    ep.disabled = false ∧ ep.available now = true :=
  scanGo_found ring now ring.length idx false none ep h

theorem scheduler_next_returns_enabled_available_witness :
    initState.disabled = false ∧ initState.available 0 = true :=
  scheduler_next_returns_enabled_available [initState] 0 0 initState (by decide)

/-- Claim C2: `cooldown_until` never decreases under any sequence of
`set_cooldown`, `note_transient_error`, `note_success`, `disable`; in
particular, after `set_cooldown t1` (from a state whose cooldown does not
already exceed `t1`), a subsequent `set_cooldown t2` with `t2 < t1` leaves
`cooldown_until` equal to `t1`. -/
theorem cooldown_until_monotone (s : AzureEndpointState) (ops : List EPOp)
    (t1 t2 : ℚ) (e1 e2 : Option Exc)
    (h1 : s.cooldown_until ≤ t1) (h2 : t2 < t1) :
    s.cooldown_until ≤ (applyOps s ops).cooldown_until ∧
    (s.set_cooldown t1 e1).cooldown_until = t1 ∧
    ((s.set_cooldown t1 e1).set_cooldown t2 e2).cooldown_until = t1 := by
  refine ⟨applyOps_cooldown_mono ops s, ?_, ?_⟩
  · rw [set_cooldown_cooldown]
    exact max_eq_right h1
  · rw [set_cooldown_cooldown, set_cooldown_cooldown, max_eq_right h1]
    exact max_eq_left (le_of_lt h2)

theorem cooldown_until_monotone_witness :
    initState.cooldown_until ≤ (applyOps initState []).cooldown_until ∧
    (initState.set_cooldown 1 none).cooldown_until = 1 ∧
    ((initState.set_cooldown 1 none).set_cooldown 0 none).cooldown_until = 1 :=
  cooldown_until_monotone initState [] 1 0 none none (by decide) (by decide)

/-- Claim C4: `note_transient_error` increments the failure streak by one and
sets `cooldown_until` to `max cooldown_until (now + base_cooldown * 2^(new
streak - 1))`; in particular, with `base_cooldown = 1`, four consecutive
transient errors from a fresh state produce backoff windows of 1, 2, 4 and 8
seconds. -/
theorem transient_error_exponential_backoff (s : AzureEndpointState)
    (e : Exc) (b n : ℚ) :
    (s.note_transient_error e b n).failure_streak = s.failure_streak + 1 ∧
    (s.note_transient_error e b n).cooldown_until
      = max s.cooldown_until (n + b * 2 ^ s.failure_streak) ∧
    (initState.note_transient_error e 1 0).cooldown_until = 1 ∧
    ((initState.note_transient_error e 1 0).note_transient_error e 1 0).cooldown_until
      = 2 ∧
    (((initState.note_transient_error e 1 0).note_transient_error e 1 0).note_transient_error
      e 1 0).cooldown_until = 4 ∧
    ((((initState.note_transient_error e 1 0).note_transient_error e 1 0).note_transient_error
      e 1 0).note_transient_error e 1 0).cooldown_until = 8 := by
  have hs0 : initState.failure_streak = 0 := rfl
  have hc0 : initState.cooldown_until = 0 := rfl
  have hc1 : (initState.note_transient_error e 1 0).cooldown_until = 1 := by
    rw [nte_cooldown, hc0, hs0]; norm_num
  have hs1 : (initState.note_transient_error e 1 0).failure_streak = 1 := by
    rw [nte_streak, hs0]
  have hc2 : ((initState.note_transient_error e 1 0).note_transient_error
      e 1 0).cooldown_until = 2 := by
    rw [nte_cooldown, hc1, hs1]; norm_num
  have hs2 : ((initState.note_transient_error e 1 0).note_transient_error
      e 1 0).failure_streak = 2 := by
    rw [nte_streak, hs1]
  have hc3 : (((initState.note_transient_error e 1 0).note_transient_error
      e 1 0).note_transient_error e 1 0).cooldown_until = 4 := by
    rw [nte_cooldown, hc2, hs2]; norm_num
  have hs3 : (((initState.note_transient_error e 1 0).note_transient_error
      e 1 0).note_transient_error e 1 0).failure_streak = 3 := by
    rw [nte_streak, hs2]
  have hc4 : ((((initState.note_transient_error e 1 0).note_transient_error
      e 1 0).note_transient_error e 1 0).note_transient_error e 1 0).cooldown_until
      = 8 := by
    rw [nte_cooldown, hc3, hs3]; norm_num
  exact ⟨nte_streak s e b n, nte_cooldown s e b n, hc1, hc2, hc3, hc4⟩

/-- Claim C9: `note_success` modifies only `failure_streak` (to 0),
`last_error` (cleared) and `total_requests` (+1); every other field is
unchanged, so a success never shortens a cooldown and never re-enables a
disabled endpoint (availability at any time is unchanged). -/
theorem note_success_frame (s : AzureEndpointState) :
    (s.note_success).failure_streak = 0 ∧
    (s.note_success).last_error = none ∧
    (s.note_success).total_requests = s.total_requests + 1 ∧
    (s.note_success).cooldown_until = s.cooldown_until ∧
    (s.note_success).disabled = s.disabled ∧
    (s.note_success).disabled_reason = s.disabled_reason ∧
    (s.note_success).total_rate_limits = s.total_rate_limits ∧
    (s.note_success).error_counts = s.error_counts ∧
    (s.note_success).error_samples = s.error_samples ∧
    (s.note_success).max_error_samples = s.max_error_samples ∧
    (s.note_success).auto_disable_threshold = s.auto_disable_threshold ∧
    (s.note_success).cfg = s.cfg ∧
    (∀ now, (s.note_success).available now = s.available now) :=
  ⟨rfl, rfl, rfl, rfl, rfl, rfl, rfl, rfl, rfl, rfl, rfl, rfl, fun _ => rfl⟩

/-- Claim C10: `set_cooldown` never changes `failure_streak`, whether or not
an exception is supplied — rate-limit cooldowns alone never move the streak
toward the auto-disable threshold. -/
theorem set_cooldown_preserves_failure_streak (s : AzureEndpointState)
    (u : ℚ) (e : Option Exc) :
    (s.set_cooldown u e).failure_streak = s.failure_streak :=
  set_cooldown_streak s u e

/-- Claim C8 counterexample: calling `disable` on an already-disabled endpoint
does NOT leave the state unchanged — the second call overwrites
`disabled_reason`, so the reason is not set at most once. -/
theorem disable_overwrites_reason :
    (initState.disable "auth error").disabled = true ∧
    (initState.disable "auth error").disabled_reason = some "auth error" ∧
    ((initState.disable "auth error").disable "second reason").disabled_reason
      = some "second reason" ∧
    (initState.disable "auth error").disable "second reason"
      ≠ initState.disable "auth error" := by
  refine ⟨rfl, rfl, rfl, ?_⟩
  decide

/-- Claim C8 amended: `disable(r)` unconditionally sets `disabled = true` and
`disabled_reason = some r`, leaving every other field unchanged; it is
idempotent only when repeated with the same reason, and a later `disable`
overwrites the reason (last write wins). -/
theorem disable_sets_fields_unconditionally (s : AzureEndpointState)
    (r r' : String) :
    (s.disable r).disabled = true ∧
    (s.disable r).disabled_reason = some r ∧
    (s.disable r).cooldown_until = s.cooldown_until ∧
    (s.disable r).failure_streak = s.failure_streak ∧
    (s.disable r).last_error = s.last_error ∧
    (s.disable r).total_requests = s.total_requests ∧
    (s.disable r).total_rate_limits = s.total_rate_limits ∧
    (s.disable r).error_counts = s.error_counts ∧
    (s.disable r).error_samples = s.error_samples ∧
    (s.disable r).max_error_samples = s.max_error_samples ∧
    (s.disable r).auto_disable_threshold = s.auto_disable_threshold ∧
    (s.disable r).cfg = s.cfg ∧
    (s.disable r).disable r = s.disable r ∧
    (s.disable r').disable r = s.disable r :=
  ⟨rfl, rfl, rfl, rfl, rfl, rfl, rfl, rfl, rfl, rfl, rfl, rfl, rfl, rfl⟩

/-- Claim C7 counterexample: a 5xx-style server error (e.g.
`InternalServerError`) matches none of the `except` clauses of
`invoke_endpoint`, so the exception propagates out of the function instead of
producing a `RequestResult` with `ok=false, retryable=true`, and no
transient error is recorded on the endpoint. -/
theorem invoke_endpoint_5xx_raises :
    invoke_endpoint initState 0
        (CallOutcome.serverError5xx
          { name := "InternalServerError", msg := "boom", isRateLimit := false })
      = Except.error
          { name := "InternalServerError", msg := "boom", isRateLimit := false } :=
  rfl

/-- Claim C7 amended: for a timeout (`APITimeoutError`) raised by the
underlying chat-completion call, `invoke_endpoint` returns a `RequestResult`
with `ok = false` and `retryable = true`, after recording a transient error on
the endpoint (failure streak incremented, exponential cooldown applied with
`base_cooldown = 1`); a 5xx-style server error is not caught and propagates
as a raised exception. -/
theorem invoke_endpoint_timeout_retryable (ep : AzureEndpointState)
    (now : ℚ) (e e' : Exc) :
    invoke_endpoint ep now (.apiTimeout e)
      = .ok (ep.note_transient_error e 1 now,
          { ok := false, retryable := true, response := none, error := some e }) ∧
    (ep.note_transient_error e 1 now).failure_streak = ep.failure_streak + 1 ∧
    (ep.note_transient_error e 1 now).cooldown_until
      = max ep.cooldown_until (now + 2 ^ ep.failure_streak) ∧
    invoke_endpoint ep now (.serverError5xx e') = .error e' := by
  refine ⟨rfl, nte_streak ep e 1 now, ?_, rfl⟩
  rw [nte_cooldown, one_mul]

/-- Claim C6: when an attempt fails (`ok = false`) and the incremented retry
count reaches `max_job_retry`, `_handle_job` resolves the future with the
carried error — or the generic exhausted-retries `TimeoutError` when none was
carried — and never requeues the job; moreover any requeue carries count
`old + 1 < max_job_retry`, so an executor runs at most `max_job_retry` times
per job. -/
theorem job_retry_exhaustion_resolves_with_error
    (future_done : Bool) (retry_count max_job_retry : Nat)
    (result : RequestResult)
    (hfd : future_done = false) (hok : result.ok = false)
    (hmax : max_job_retry ≤ retry_count + 1) :
    handle_job future_done retry_count max_job_retry result
      = .setException (result.error.getD (problematicJobError (retry_count + 1))) ∧
    (∀ c, handle_job future_done retry_count max_job_retry result
      ≠ .requeue c) ∧
    (∀ (fd : Bool) (rc mr : Nat) (r : RequestResult) (c : Nat),
      handle_job fd rc mr r = .requeue c → c = rc + 1 ∧ c < mr) := by
  subst hfd
  have hmain : handle_job false retry_count max_job_retry result
      = .setException (result.error.getD (problematicJobError (retry_count + 1))) := by
    simp [handle_job, hok, hmax]
  refine ⟨hmain, ?_, ?_⟩
  · intro c
    rw [hmain]
    simp
  · intro fd rc mr r c h
    simp only [handle_job] at h
    split at h
    · simp at h
    · split at h
      · simp at h
      · split at h
        · simp at h
        · rename_i hnotmax
          split at h
          · simp only [HandleOutcome.requeue.injEq] at h
            omega
          · simp at h

theorem job_retry_exhaustion_resolves_with_error_witness :
    handle_job false 4 5
        { ok := false, retryable := true, response := none, error := none }
      = .setException ((none : Option Exc).getD (problematicJobError (4 + 1))) ∧
    (∀ c, handle_job false 4 5
        { ok := false, retryable := true, response := none, error := none }
      ≠ .requeue c) ∧
    (∀ (fd : Bool) (rc mr : Nat) (r : RequestResult) (c : Nat),
      handle_job fd rc mr r = .requeue c → c = rc + 1 ∧ c < mr) :=
  job_retry_exhaustion_resolves_with_error false 4 5
    { ok := false, retryable := true, response := none, error := none }
    rfl rfl (by decide)

/-- Claim C3: starting from `failure_streak = 0`, `disabled = false` and
`auto_disable_threshold = 5`, any four consecutive `note_transient_error`
calls leave the endpoint enabled — and available again at any time at or past
its cooldown — while the fifth call permanently disables it with a reason
recording the failure count (5) and the last error; no later operation
re-enables it. -/
theorem auto_disable_fires_exactly_at_threshold
    (s : AzureEndpointState) (e1 e2 e3 e4 e5 : Exc)
    (b1 b2 b3 b4 b5 n1 n2 n3 n4 n5 : ℚ)
    (hs : s.failure_streak = 0) (hd : s.disabled = false)
    (ht : s.auto_disable_threshold = 5) :
    ((((s.note_transient_error e1 b1 n1).note_transient_error
        e2 b2 n2).note_transient_error e3 b3 n3).note_transient_error
        e4 b4 n4).disabled = false ∧
    (∀ now',
      ((((s.note_transient_error e1 b1 n1).note_transient_error
          e2 b2 n2).note_transient_error e3 b3 n3).note_transient_error
          e4 b4 n4).cooldown_until ≤ now' →
      ((((s.note_transient_error e1 b1 n1).note_transient_error
          e2 b2 n2).note_transient_error e3 b3 n3).note_transient_error
          e4 b4 n4).available now' = true) ∧
    (((((s.note_transient_error e1 b1 n1).note_transient_error
        e2 b2 n2).note_transient_error e3 b3 n3).note_transient_error
        e4 b4 n4).note_transient_error e5 b5 n5).disabled = true ∧
    (((((s.note_transient_error e1 b1 n1).note_transient_error
        e2 b2 n2).note_transient_error e3 b3 n3).note_transient_error
        e4 b4 n4).note_transient_error e5 b5 n5).disabled_reason
      = some (autoDisableMsg 5 e5) ∧
    (∀ ops,
      (applyOps (((((s.note_transient_error e1 b1 n1).note_transient_error
          e2 b2 n2).note_transient_error e3 b3 n3).note_transient_error
          e4 b4 n4).note_transient_error e5 b5 n5) ops).disabled = true) := by
  have step : ∀ (t : AzureEndpointState) (e : Exc) (b n : ℚ),
      t.disabled = false → t.auto_disable_threshold = 5 →
      (t.failure_streak : Int) + 1 < 5 →
      (t.note_transient_error e b n).disabled = false ∧
      (t.note_transient_error e b n).failure_streak = t.failure_streak + 1 ∧
      (t.note_transient_error e b n).auto_disable_threshold = 5 := by
    intro t e b n htd htt hlt
    have hnf := nte_no_fire t e b n (by
      rw [htt]
      rintro ⟨-, -, hc⟩
      omega)
    exact ⟨hnf.1.trans htd, nte_streak t e b n,
      (nte_threshold t e b n).trans htt⟩
  obtain ⟨d1, k1, t1'⟩ := step s e1 b1 n1 hd ht (by rw [hs]; omega)
  obtain ⟨d2, k2, t2'⟩ := step _ e2 b2 n2 d1 t1' (by rw [k1, hs]; omega)
  obtain ⟨d3, k3, t3'⟩ := step _ e3 b3 n3 d2 t2' (by rw [k2, k1, hs]; omega)
  obtain ⟨d4, k4, t4'⟩ := step _ e4 b4 n4 d3 t3' (by rw [k3, k2, k1, hs]; omega)
  have hstreak4 : ((((s.note_transient_error e1 b1 n1).note_transient_error
      e2 b2 n2).note_transient_error e3 b3 n3).note_transient_error
      e4 b4 n4).failure_streak = 4 := by
    rw [k4, k3, k2, k1, hs]
  have hf := nte_fire _ e5 b5 n5 d4 (by rw [t4']; omega)
    (by rw [t4', hstreak4]; omega)
  refine ⟨d4, ?_, hf.1, ?_, ?_⟩
  · intro now' hle
    exact (available_true_iff _ now').mpr ⟨d4, hle⟩
  · rw [hf.2, hstreak4]
  · intro ops
    exact applyOps_disabled_stays ops _ hf.1

theorem auto_disable_fires_exactly_at_threshold_witness :
    ((((initState.note_transient_error noExplicitErrorError 1 0).note_transient_error
        noExplicitErrorError 1 0).note_transient_error
        noExplicitErrorError 1 0).note_transient_error
        noExplicitErrorError 1 0).disabled = false ∧
    (∀ now',
      ((((initState.note_transient_error noExplicitErrorError 1 0).note_transient_error
          noExplicitErrorError 1 0).note_transient_error
          noExplicitErrorError 1 0).note_transient_error
          noExplicitErrorError 1 0).cooldown_until ≤ now' →
      ((((initState.note_transient_error noExplicitErrorError 1 0).note_transient_error
          noExplicitErrorError 1 0).note_transient_error
          noExplicitErrorError 1 0).note_transient_error
          noExplicitErrorError 1 0).available now' = true) ∧
    (((((initState.note_transient_error noExplicitErrorError 1 0).note_transient_error
        noExplicitErrorError 1 0).note_transient_error
        noExplicitErrorError 1 0).note_transient_error
        noExplicitErrorError 1 0).note_transient_error
        noExplicitErrorError 1 0).disabled = true ∧
    (((((initState.note_transient_error noExplicitErrorError 1 0).note_transient_error
        noExplicitErrorError 1 0).note_transient_error
        noExplicitErrorError 1 0).note_transient_error
        noExplicitErrorError 1 0).note_transient_error
        noExplicitErrorError 1 0).disabled_reason
      = some (autoDisableMsg 5 noExplicitErrorError) ∧
    (∀ ops,
      (applyOps (((((initState.note_transient_error
          noExplicitErrorError 1 0).note_transient_error
          noExplicitErrorError 1 0).note_transient_error
          noExplicitErrorError 1 0).note_transient_error
          noExplicitErrorError 1 0).note_transient_error
          noExplicitErrorError 1 0) ops).disabled = true) :=
  auto_disable_fires_exactly_at_threshold initState
    noExplicitErrorError noExplicitErrorError noExplicitErrorError
    noExplicitErrorError noExplicitErrorError
    1 1 1 1 1 0 0 0 0 0 rfl rfl rfl

/-- Claim C5: one scan of `WeightedRRScheduler.next` raises the terminal
`RuntimeError` (modelled as `exhausted`) exactly when every endpoint in the
ring is disabled; and whenever a scan instead decides to wait, the sleep
target lies strictly in the future and any rescan at or past it (from any
cursor) returns an endpoint — so with at least one enabled endpoint `next()`
returns an endpoint, possibly after waiting for the soonest cooldown expiry. -/
theorem scheduler_exhaustion_characterization
    (ring : List AzureEndpointState) (idx : Nat) (now : ℚ)
    (hidx : idx < ring.length ∨ ring = []) :
    (WeightedRRScheduler.nextScan ring idx now = .exhausted ↔
      ∀ ep ∈ ring, ep.disabled = true) ∧
    (∀ s, WeightedRRScheduler.nextScan ring idx now = .wait s →
      now < s ∧ ∀ idx' now', idx' < ring.length → s ≤ now' →
        ∃ ep, WeightedRRScheduler.nextScan ring idx' now' = .found ep) := by
  rcases hidx with hidx | hempty
  · have hn : 0 < ring.length := lt_of_le_of_lt (Nat.zero_le idx) hidx
    constructor
    · constructor
      · intro h ep hmem
        obtain ⟨j, hj, hg⟩ := exists_getD_of_mem ring ep initState hmem
        obtain ⟨k, hk, hmod⟩ := exists_shift_mod ring.length idx j hn hj
        have hvis := scanGo_exhausted_all_disabled ring now hn ring.length
          idx hidx h k hk
        rw [hmod, hg] at hvis
        exact hvis
      · intro hall
        exact scanGo_all_disabled_exhausted ring now hn hall ring.length idx hidx
    · intro s h
      obtain ⟨ep, hmem, hd, ha, hc⟩ := scanGo_wait_inv ring now hn ring.length
        idx hidx false none (by intro s0 h0; simp at h0) s h
      constructor
      · have hlt := available_false_lt ep now hd ha
        rw [hc] at hlt
        exact hlt
      · intro idx' now' hidx' hnow'
        obtain ⟨j, hj, hg⟩ := exists_getD_of_mem ring ep initState hmem
        obtain ⟨k, hk, hmod⟩ := exists_shift_mod ring.length idx' j hn hj
        refine scanGo_found_of_exists ring now' hn ring.length idx' hidx'
          ⟨k, hk, ?_, ?_⟩ false none
        · rw [hmod, hg]
          exact hd
        · rw [hmod, hg]
          exact (available_true_iff ep now').mpr ⟨hd, by rw [hc]; exact hnow'⟩
  · subst hempty
    refine ⟨?_, ?_⟩
    · simp [WeightedRRScheduler.nextScan, scanGo]
    · intro s h
      simp [WeightedRRScheduler.nextScan, scanGo] at h

theorem scheduler_exhaustion_characterization_witness :
    (WeightedRRScheduler.nextScan [initState.disable "down"] 0 0 = .exhausted ↔
      ∀ ep ∈ [initState.disable "down"], ep.disabled = true) ∧
    (∀ s, WeightedRRScheduler.nextScan [initState.disable "down"] 0 0 = .wait s →
      0 < s ∧ ∀ idx' now', idx' < [initState.disable "down"].length → s ≤ now' →
        ∃ ep, WeightedRRScheduler.nextScan [initState.disable "down"] idx' now'
          = .found ep) :=
  scheduler_exhaustion_characterization [initState.disable "down"] 0 0
    (Or.inl (by decide))
